import Mathlib

/-!
Verification of the message-orchestration pipeline of the Chatbot-Bedrock
repository: a shallow embedding of `src/guard.py`, `src/nlu.py`,
`src/bedrock_client.py` (the RAG confidence computation), `src/whatsapp.py`
(the bounded outbound retry), `src/app.py` (`_handle_message` and
`_handle_text_common`) and `src/discord_integration.py`
(`process_followup_task`), together with theorems about the guardrail,
classifier, routing and deferred-task behaviour.

External collaborators (DynamoDB, Bedrock, the outbound HTTP POSTs) are
modelled by the values or `Except` results they return; a handler's side
effects (the text handed to the dispatcher, the session record written) are
returned as an explicit outcome record.
-/

namespace Chatbot

/-! ### Python string primitives -/

/-- The ASCII whitespace characters recognised by Python `str.strip()`. -/
def pyIsSpace (c : Char) : Bool :=
  c = ' ' || c = '\t' || c = '\n' || c = '\x0d' || c = '\x0b' || c = '\x0c'

/-- Python `str.strip()`: remove whitespace from both ends of the string. -/
def pyStrip (s : String) : String :=
  ⟨List.rdropWhile pyIsSpace (s.data.dropWhile pyIsSpace)⟩

/-- Python `str.lower()` (ASCII case folding, character by character). -/
def pyToLower (s : String) : String :=
  ⟨s.data.map Char.toLower⟩

/-- Substring test on character lists: does `needle` occur contiguously
inside the second list?  (Python's `needle in haystack` on strings.) -/
def listIsInfix (needle : List Char) : List Char → Bool
  | [] => needle.isPrefixOf []
  | c :: rest => needle.isPrefixOf (c :: rest) || listIsInfix needle rest

/-- Python `needle in haystack` on strings. -/
def pyContains (haystack needle : String) : Bool :=
  listIsInfix needle.data haystack.data

/-- Python `x or y` for floats: `x` is falsy exactly when it is `0`. -/
def pyOr (x y : ℚ) : ℚ :=
  if x = 0 then y else x

/-- Python `x or y` where `x` is an optional string (`None` and `""` are
falsy). -/
def pyOrStr (x : Option String) (y : String) : String :=
  match x with
  | none => y
  | some s => if s = "" then y else s

/-! ### `src/guard.py` -/

namespace Guard

def LOW_CONFIDENCE_THRESHOLD : ℚ := mkRat 45 100

def DENYLIST_RESPONSE : String :=
  "Maaf, saya tidak dapat membagikan informasi tersebut. " ++
  "Tim kami siap membantu secara langsung bila diperlukan."

def LOW_CONFIDENCE_RESPONSE : String :=
  "Maaf, saya belum yakin dapat menjawab pertanyaan Anda dengan tepat. " ++
  "Saya akan meneruskan ini ke tim layanan pelanggan kami."

/-- The dictionary `{"final_text": ..., "escalate": ...}` returned by
`guard.apply`. -/
structure GuardResult where
  final_text : String
  escalate : Bool
deriving DecidableEq

/-- `guard._contains_denylisted_term`: any denylist term occurs in the
lower-cased text. -/
def contains_denylisted_term (text : String) (denylist : List String) : Bool :=
  let lowered := pyToLower text
  denylist.any fun term => pyContains lowered (pyToLower term)

/-- Python truthiness of the `denylist` argument of `guard.apply`
(`None` and the empty list are falsy). -/
def denylistTruthy : Option (List String) → Bool
  | none => false
  | some dl => !dl.isEmpty

/-- `guard.apply(answer_text, confidence, denylist)`. -/
def apply (answer_text : String) (confidence : ℚ)
    (denylist : Option (List String)) : GuardResult :=
  let final_text := pyStrip answer_text
  if final_text = "" then
    { final_text := LOW_CONFIDENCE_RESPONSE, escalate := true }
  else
    let st :=
      if confidence < LOW_CONFIDENCE_THRESHOLD then
        (LOW_CONFIDENCE_RESPONSE, true)
      else
        (final_text, false)
    if denylistTruthy denylist && contains_denylisted_term st.1 (denylist.getD []) then
      { final_text := DENYLIST_RESPONSE, escalate := true }
    else
      { final_text := st.1, escalate := st.2 }

end Guard

/-! ### `src/nlu.py` -/

/-- The three intent strings produced by `nlu.classify`. -/
inductive Intent where
  | order_status
  | faq
  | out_of_scope
deriving DecidableEq

/-- The dictionary `{"intent": ..., "confidence": ...}` returned by
`nlu.classify`. -/
structure Classification where
  intent : Intent
  confidence : ℚ
deriving DecidableEq

def FAQ_KEYWORDS : List String :=
  ["jam", "harga", "layanan", "informasi", "alamat", "promo"]

def ORDER_STATUS_KEYWORDS : List String :=
  ["status", "nomor pesanan", "order", "resi", "pengiriman"]

namespace Nlu

/-- `nlu.classify`. -/
def classify (text : String) : Classification :=
  let normalized := pyToLower text
  if ORDER_STATUS_KEYWORDS.any (fun keyword => pyContains normalized keyword) then
    { intent := .order_status, confidence := mkRat 85 100 }
  else if FAQ_KEYWORDS.any (fun keyword => pyContains normalized keyword) then
    { intent := .faq, confidence := mkRat 7 10 }
  else
    { intent := .out_of_scope, confidence := mkRat 3 10 }

/-- `nlu.check_order_status`: the fixed placeholder reply. -/
def check_order_status : String :=
  "Fitur pengecekan status pesanan akan segera hadir. " ++
  "Tim kami sudah menerima permintaan Anda."

end Nlu

/-! ### `src/bedrock_client.py` (the RAG confidence computation) -/

/-- `schemas.GeneratedAnswer` restricted to the fields the pipeline reads
(`answer` and `confidence`; the citation list is an opaque pass-through). -/
structure GeneratedAnswer where
  answer : String
  confidence : ℚ
deriving DecidableEq

/-- The part of a Bedrock RetrieveAndGenerate response that
`answer_with_rag` reads: the output text, and for each citation the
optional `score` of each of its sources. -/
structure RagResponse where
  output_text : String
  citations : List (List (Option ℚ))
deriving DecidableEq

/-- The `highest_score` fold of `answer_with_rag`: the maximum of the
citation source scores that are present, starting from `0.0`. -/
def ragHighestScore (citations : List (List (Option ℚ))) : ℚ :=
  citations.foldl
    (fun acc sources =>
      sources.foldl
        (fun acc score =>
          match score with
          | some v => max acc v
          | none => acc)
        acc)
    0

/-- The observable core of `BedrockClient.answer_with_rag`: from the
response's output text and citations it builds the `GeneratedAnswer`
(the prompt composition and the transport call do not affect these
fields). -/
def answer_with_rag (resp : RagResponse) : GeneratedAnswer :=
  let answer_text := pyStrip resp.output_text
  let highest_score := ragHighestScore resp.citations
  let confidence :=
    if highest_score > 0 then highest_score
    else if answer_text ≠ "" then mkRat 3 4
    else 0
  { answer := answer_text, confidence := confidence }

/-! ### Session state (`src/schemas.py` / `src/state.py`) -/

/-- The `SessionState` record as the pipeline writes it (the
`attributes` map always holds the single key `bedrock_confidence`;
`updated_at` and `window_24h` take their defaults and never influence the
pipeline). -/
structure SessionState where
  wa_id : String
  last_intent : Intent
  last_reply : String
  escalation : Bool
  bedrock_confidence : ℚ
deriving DecidableEq

/-! ### `src/app.py` -/

def DENYLIST_TERMS : List String := ["nomor kartu", "password", "otp", "pin"]

/-- The `if/elif/else` routing block shared verbatim by `_handle_message`,
`_handle_text_common` and `process_followup_task`: from the classified
intent, the running confidence and the collaborator's answer it yields
`(reply_text, model_confidence)` as handed to `guard.apply`, plus the
`bedrock_answer` optional. -/
def routeReply (intent : Intent) (confidence0 : ℚ) (gen : GeneratedAnswer) :
    String × ℚ × Option GeneratedAnswer :=
  match intent with
  | .order_status => (Nlu.check_order_status, mkRat 9 10, none)
  | .out_of_scope => (Guard.LOW_CONFIDENCE_RESPONSE, confidence0, none)
  | .faq => (gen.answer, min confidence0 gen.confidence, some gen)

/-- `schemas.TwilioWebhookPayload` restricted to the fields
`_handle_message` reads. -/
structure TwilioPayload where
  from_number : String
  wa_id : Option String
  body : String
  num_media : Nat
deriving DecidableEq

/-- The observable outcome of one synchronous pipeline run: the text handed
to the dispatcher, the escalation flag reported, the confidence that was
passed to `guard.apply`, and the session record written. -/
structure PipelineOutcome where
  sent_text : String
  escalate : Bool
  guard_confidence : ℚ
  session : SessionState
deriving DecidableEq

/-- `app._handle_message` (form-encoded inbound path).  The Bedrock
collaborator is modelled by the `GeneratedAnswer` it returns; the session
read only feeds prompt composition and cannot change the outcome.  A
message with attached media is the no-op "ignored" outcome (`none`). -/
def handle_message (payload : TwilioPayload) (gen : GeneratedAnswer) :
    Option PipelineOutcome :=
  if payload.num_media > 0 then none
  else
    let user_text := payload.body
    let sender := pyOrStr payload.wa_id payload.from_number
    let classification := Nlu.classify user_text
    let model_confidence := classification.confidence
    let routed := routeReply classification.intent model_confidence gen
    let guard_result := Guard.apply routed.1 routed.2.1 (some DENYLIST_TERMS)
    let guard_result :=
      if classification.intent = .out_of_scope then
        { final_text := Guard.LOW_CONFIDENCE_RESPONSE, escalate := true }
      else guard_result
    some
      { sent_text := guard_result.final_text
        escalate := guard_result.escalate
        guard_confidence := routed.2.1
        session :=
          { wa_id := sender
            last_intent := classification.intent
            last_reply := guard_result.final_text
            escalation :=
              guard_result.escalate || decide (classification.intent = .out_of_scope)
            bedrock_confidence :=
              match routed.2.2 with
              | some answer => answer.confidence
              | none => routed.2.1 } }

/-- `app._handle_text_common` (plain JSON chat path).  The reported
`escalate` field of the JSON response is `bool(session_state.escalation)`. -/
def handle_text_common (user_text : String) (user_id : String)
    (gen : GeneratedAnswer) : PipelineOutcome :=
  let classification := Nlu.classify user_text
  let model_confidence := pyOr classification.confidence (mkRat 1 2)
  let routed := routeReply classification.intent model_confidence gen
  let guard_result := Guard.apply routed.1 routed.2.1 (some DENYLIST_TERMS)
  let guard_result :=
    if classification.intent = .out_of_scope then
      { final_text := Guard.LOW_CONFIDENCE_RESPONSE, escalate := true }
    else guard_result
  let session_state : SessionState :=
    { wa_id := user_id
      last_intent := classification.intent
      last_reply := guard_result.final_text
      escalation :=
        guard_result.escalate || decide (classification.intent = .out_of_scope)
      bedrock_confidence :=
        match routed.2.2 with
        | some answer => answer.confidence
        | none => routed.2.1 }
  { sent_text := guard_result.final_text
    escalate := session_state.escalation
    guard_confidence := routed.2.1
    session := session_state }

/-! ### `src/discord_integration.py` (Phase 2 of the deferred protocol) -/

/-- Python exceptions that the collaborators can raise. -/
inductive PyErr where
  | clientError (msg : String)
  | httpStatusError (status : Nat)
deriving DecidableEq

/-- The deferred-task payload handed to the follow-up worker. -/
structure DeferredTask where
  question : String
  user_id : String
  interaction_token : String
  application_id : Option String
deriving DecidableEq

/-- The observable effects of a completed Phase 2 run: the content POSTed
to the Discord webhook, the session record written and the confidence that
was passed to `guard.apply` (all `none` when the run ended early or an
exception was caught). -/
structure FollowupOutcome where
  posted : Option String
  sessionWritten : Option SessionState
  guard_confidence : Option ℚ
deriving DecidableEq

/-- `discord_integration.process_followup_task`.  Collaborators are passed
as the `Except` results of their calls: `get_session` (the DynamoDB read),
`bedrock_answer` (the generation call, consulted only on the generation
route), `put_session` (the DynamoDB write) and `post` (the webhook POST,
returning a status code).  Classification and the session read run before
the `try` block; everything from routing to the POST runs inside it, and
an exception there is caught and logged, ending the run with no reply. -/
def process_followup_task (task : DeferredTask)
    (get_session : Except PyErr (Option SessionState))
    (bedrock_answer : Except PyErr GeneratedAnswer)
    (put_session : SessionState → Except PyErr Unit)
    (post : String → Except PyErr Nat) : Except PyErr FollowupOutcome :=
  if task.interaction_token = "" ∨ task.application_id = none then
    .ok { posted := none, sessionWritten := none, guard_confidence := none }
  else
    let classification := Nlu.classify task.question
    match get_session with
    | .error e => .error e
    | .ok _session =>
      let confidence0 := pyOr classification.confidence (mkRat 1 2)
      let tryBody : Except PyErr FollowupOutcome := do
        let routed ←
          match classification.intent with
          | .order_status =>
            pure (Nlu.check_order_status, mkRat 9 10, (none : Option GeneratedAnswer))
          | .out_of_scope =>
            pure (Guard.LOW_CONFIDENCE_RESPONSE, confidence0, none)
          | .faq => do
            let answer ← bedrock_answer
            pure (answer.answer, min confidence0 answer.confidence, some answer)
        let guard_result := Guard.apply routed.1 routed.2.1 none
        let guard_result :=
          if classification.intent = .out_of_scope then
            { final_text := Guard.LOW_CONFIDENCE_RESPONSE, escalate := true }
          else guard_result
        let session_state : SessionState :=
          { wa_id := task.user_id
            last_intent := classification.intent
            last_reply := guard_result.final_text
            escalation :=
              guard_result.escalate || decide (classification.intent = .out_of_scope)
            bedrock_confidence :=
              match routed.2.2 with
              | some answer => answer.confidence
              | none => routed.2.1 }
        let _ ← put_session session_state
        let _status ← post guard_result.final_text
        pure
          { posted := some guard_result.final_text
            sessionWritten := some session_state
            guard_confidence := some routed.2.1 }
      match tryBody with
      | .ok outcome => .ok outcome
      | .error _ =>
        .ok { posted := none, sessionWritten := none, guard_confidence := none }

/-! ### `src/whatsapp.py` (bounded outbound retry) -/

/-- The observable behaviour of one `_http_post_with_retry` run: the status
of the returned response, how many POST attempts were made, and the
sequence of back-off sleeps performed (in seconds). -/
structure RetryOutcome where
  status : Nat
  attempts : Nat
  sleeps : List ℚ
deriving DecidableEq

/-- The `while True` loop of `_http_post_with_retry`.  `post` gives the
status of the i-th POST attempt (or the exception it raises, which
propagates).  Recorded state: attempts made so far, current back-off and
sleeps performed. -/
def retryLoop (post : Nat → Except PyErr Nat) (attempts : Nat) (backoff : ℚ)
    (sleeps : List ℚ) : Except PyErr RetryOutcome :=
  let a := attempts + 1
  match post a with
  | .error e => .error e
  | .ok status =>
    if h : status < 500 ∨ 3 ≤ a then .ok ⟨status, a, sleeps⟩
    else retryLoop post a (backoff * 2) (sleeps ++ [backoff])
termination_by 3 - attempts
decreasing_by
  simp only [not_or, not_lt, not_le] at h
  omega

/-- `whatsapp._http_post_with_retry`: starts with zero attempts and a
0.5 second back-off. -/
def http_post_with_retry (post : Nat → Except PyErr Nat) :
    Except PyErr RetryOutcome :=
  retryLoop post 0 (mkRat 1 2) []

/-- The status handling of `whatsapp.send_text`: the response of the retry
loop is returned, except that a status of 400 or above raises
`requests.HTTPError` via `raise_for_status`. -/
def send_text (post : Nat → Except PyErr Nat) : Except PyErr RetryOutcome :=
  match http_post_with_retry post with
  | .error e => .error e
  | .ok r => if 400 ≤ r.status then .error (.httpStatusError r.status) else .ok r

/-- The text contains one of the keywords as a contiguous substring of its
lower-cased form (the membership test of `nlu.classify`, expressed
structurally). -/
def mentionsKeyword (keywords : List String) (text : String) : Prop :=
  ∃ k ∈ keywords, k.data <:+: (pyToLower text).data

/-! ## Helper lemmas -/

theorem listIsInfix_iff (needle hay : List Char) :
    listIsInfix needle hay = true ↔ needle <:+: hay := by
  induction hay with
  | nil =>
    simp [listIsInfix, List.isPrefixOf_iff_prefix]
  | cons c rest ih =>
    rw [listIsInfix, Bool.or_eq_true, List.isPrefixOf_iff_prefix, ih,
      List.infix_cons_iff]

theorem pyContains_iff (haystack needle : String) :
    pyContains haystack needle = true ↔ needle.data <:+: haystack.data :=
  listIsInfix_iff needle.data haystack.data

theorem dropWhile_eq_self_of_initial {p : Char → Bool} {m t : List Char}
    (hm : m.dropWhile p = m) (ht : t <+: m) : t.dropWhile p = t := by
  rw [List.dropWhile_eq_self_iff] at hm ⊢
  intro hl
  have hlen : 0 < m.length := lt_of_lt_of_le hl ht.length_le
  have := ht.getElem (n := 0) hl
  simp only [List.get_eq_getElem]
  rw [this]
  exact hm hlen

/-- Python `strip` is idempotent. -/
theorem pyStrip_idem (s : String) : pyStrip (pyStrip s) = pyStrip s := by
  show (⟨List.rdropWhile pyIsSpace
      ((List.rdropWhile pyIsSpace (s.data.dropWhile pyIsSpace)).dropWhile pyIsSpace)⟩ :
    String) = _
  have hm : (s.data.dropWhile pyIsSpace).dropWhile pyIsSpace
      = s.data.dropWhile pyIsSpace := List.dropWhile_idempotent _ _
  have hpre : List.rdropWhile pyIsSpace (s.data.dropWhile pyIsSpace)
      <+: s.data.dropWhile pyIsSpace := List.rdropWhile_prefix _ _
  rw [dropWhile_eq_self_of_initial hm hpre, List.rdropWhile_idempotent]
  rfl

/-- Closed form of `guard.apply` when no denylist is given. -/
theorem apply_none_eq (t : String) (c : ℚ) :
    Guard.apply t c none =
      if pyStrip t = "" then ⟨Guard.LOW_CONFIDENCE_RESPONSE, true⟩
      else if c < Guard.LOW_CONFIDENCE_THRESHOLD then
        ⟨Guard.LOW_CONFIDENCE_RESPONSE, true⟩
      else ⟨pyStrip t, false⟩ := by
  simp only [Guard.apply, Guard.denylistTruthy, Bool.false_and, Bool.false_eq_true,
    if_false]
  split
  · rfl
  · split <;> rfl

/-- Closed form of `guard.apply` when a denylist is given. -/
theorem apply_some_eq (t : String) (c : ℚ) (dl : List String) :
    Guard.apply t c (some dl) =
      if pyStrip t = "" then ⟨Guard.LOW_CONFIDENCE_RESPONSE, true⟩
      else if c < Guard.LOW_CONFIDENCE_THRESHOLD then
        (if !dl.isEmpty && Guard.contains_denylisted_term Guard.LOW_CONFIDENCE_RESPONSE dl
          then ⟨Guard.DENYLIST_RESPONSE, true⟩
          else ⟨Guard.LOW_CONFIDENCE_RESPONSE, true⟩)
      else
        (if !dl.isEmpty && Guard.contains_denylisted_term (pyStrip t) dl
          then ⟨Guard.DENYLIST_RESPONSE, true⟩
          else ⟨pyStrip t, false⟩) := by
  simp only [Guard.apply, Guard.denylistTruthy]
  split
  · rfl
  · split <;> rfl

/-- The denylist branch of `guard.apply`: if the branch's own output still
contains a denylisted term, the branch must have fired. -/
theorem denylist_step {ft : String} {esc : Bool} {dl : List String}
    (h : Guard.contains_denylisted_term
        (if !dl.isEmpty && Guard.contains_denylisted_term ft dl then
          ({ final_text := Guard.DENYLIST_RESPONSE, escalate := true } : Guard.GuardResult)
        else { final_text := ft, escalate := esc }).final_text dl = true) :
    (if !dl.isEmpty && Guard.contains_denylisted_term ft dl then
        ({ final_text := Guard.DENYLIST_RESPONSE, escalate := true } : Guard.GuardResult)
      else { final_text := ft, escalate := esc }) =
      { final_text := Guard.DENYLIST_RESPONSE, escalate := true } := by
  by_cases hb : (!dl.isEmpty && Guard.contains_denylisted_term ft dl) = true
  · rw [if_pos hb]
  · rw [if_neg hb] at h ⊢
    have h' : Guard.contains_denylisted_term ft dl = true := h
    rw [Bool.and_eq_true] at hb
    cases dl with
    | nil => simp [Guard.contains_denylisted_term] at h'
    | cons a as => exact absurd ⟨by simp, h'⟩ hb

theorem classify_cases (t : String) :
    Nlu.classify t = ⟨.order_status, mkRat 85 100⟩ ∨
    Nlu.classify t = ⟨.faq, mkRat 7 10⟩ ∨
    Nlu.classify t = ⟨.out_of_scope, mkRat 3 10⟩ := by
  simp only [Nlu.classify]
  split
  · exact Or.inl rfl
  · split
    · exact Or.inr (Or.inl rfl)
    · exact Or.inr (Or.inr rfl)

theorem classify_eq_of_out_of_scope {t : String}
    (h : (Nlu.classify t).intent = .out_of_scope) :
    Nlu.classify t = ⟨.out_of_scope, mkRat 3 10⟩ := by
  rcases classify_cases t with h1 | h1 | h1
  · rw [h1] at h; exact absurd h (by decide)
  · rw [h1] at h; exact absurd h (by decide)
  · exact h1

theorem classify_eq_of_faq {t : String}
    (h : (Nlu.classify t).intent = .faq) :
    Nlu.classify t = ⟨.faq, mkRat 7 10⟩ := by
  rcases classify_cases t with h1 | h1 | h1
  · rw [h1] at h; exact absurd h (by decide)
  · exact h1
  · rw [h1] at h; exact absurd h (by decide)

theorem intent_resolve {i : Intent} (h1 : i ≠ .order_status)
    (h2 : i ≠ .out_of_scope) : i = .faq := by
  cases i
  · exact absurd rfl h1
  · rfl
  · exact absurd rfl h2

theorem mentionsKeyword_iff (kws : List String) (t : String) :
    mentionsKeyword kws t ↔ (kws.any fun k => pyContains (pyToLower t) k) = true := by
  simp only [mentionsKeyword, List.any_eq_true, pyContains_iff]

theorem half_mul_two : (mkRat 1 2 : ℚ) * 2 = 1 := by
  rw [Rat.mkRat_eq_divInt, Rat.divInt_eq_div]
  norm_num

/-! ## Claims -/

/-- C3 (counterexample): when the input text strips to empty, `guard.apply`
returns the low-confidence fallback through the early return and never runs
the denylist check, so the returned final text can contain a denylisted
term (here `"maaf"`) without being the denylist fallback. -/
theorem c3_counterexample :
    Guard.apply "" 1 (some ["maaf"]) =
      { final_text := Guard.LOW_CONFIDENCE_RESPONSE, escalate := true } ∧
    Guard.contains_denylisted_term
      (Guard.apply "" 1 (some ["maaf"])).final_text ["maaf"] = true ∧
    Guard.LOW_CONFIDENCE_RESPONSE ≠ Guard.DENYLIST_RESPONSE :=
  ⟨by decide, by decide, by decide⟩

/-- C3 (amended): for every call to `guard.apply` with a denylist given and
an input whose stripped text is nonempty, if the returned final text
contains any denylist term as a case-insensitive substring of the (possibly
already low-confidence-replaced) text, then the result has
`escalate = true` and a final text equal to the fixed denylist fallback,
regardless of the confidence value; the denylist check runs after and
overrides the low-confidence substitution. -/
theorem c3_denylist_precedence (t : String) (c : ℚ) (dl : List String)
    (hne : pyStrip t ≠ "")
    (hcontains : Guard.contains_denylisted_term
        (Guard.apply t c (some dl)).final_text dl = true) :
    (Guard.apply t c (some dl)).escalate = true ∧
      (Guard.apply t c (some dl)).final_text = Guard.DENYLIST_RESPONSE := by
  rw [apply_some_eq, if_neg hne] at hcontains ⊢
  rcases lt_or_ge c Guard.LOW_CONFIDENCE_THRESHOLD with hlt | hge
  · rw [if_pos hlt] at hcontains ⊢
    rw [denylist_step hcontains]
    exact ⟨rfl, rfl⟩
  · rw [if_neg (not_lt.mpr hge)] at hcontains ⊢
    rw [denylist_step hcontains]
    exact ⟨rfl, rfl⟩

/-- C3 (witness): a nonempty text containing the denylisted term `"maaf"`
is replaced by the denylist fallback with escalation. -/
theorem c3_denylist_precedence_witness :
    (pyStrip "maaf ya" ≠ "" ∧
      Guard.contains_denylisted_term
        (Guard.apply "maaf ya" 1 (some ["maaf"])).final_text ["maaf"] = true) ∧
    ((Guard.apply "maaf ya" 1 (some ["maaf"])).escalate = true ∧
      (Guard.apply "maaf ya" 1 (some ["maaf"])).final_text = Guard.DENYLIST_RESPONSE) :=
  ⟨⟨by decide, by decide⟩,
    c3_denylist_precedence "maaf ya" 1 ["maaf"] (by decide) (by decide)⟩

/-- C6: `classify` is a total function (it is a Lean function by
construction); any text containing an order-tracking keyword together with
an FAQ keyword classifies as `order_status` with confidence 0.85 (the first
rule wins); a text containing only an FAQ keyword yields `faq` with 0.70;
a text containing neither yields `out_of_scope` with 0.30. -/
theorem c6_classifier_total_priority (t : String) :
    (mentionsKeyword ORDER_STATUS_KEYWORDS t ∧ mentionsKeyword FAQ_KEYWORDS t →
      Nlu.classify t = ⟨.order_status, mkRat 85 100⟩) ∧
    (mentionsKeyword FAQ_KEYWORDS t ∧ ¬mentionsKeyword ORDER_STATUS_KEYWORDS t →
      Nlu.classify t = ⟨.faq, mkRat 7 10⟩) ∧
    (¬mentionsKeyword ORDER_STATUS_KEYWORDS t ∧ ¬mentionsKeyword FAQ_KEYWORDS t →
      Nlu.classify t = ⟨.out_of_scope, mkRat 3 10⟩) := by
  refine ⟨fun h => ?_, fun h => ?_, fun h => ?_⟩
  · have ho := (mentionsKeyword_iff _ _).mp h.1
    simp only [Nlu.classify]
    rw [if_pos ho]
  · have hf := (mentionsKeyword_iff _ _).mp h.1
    have hno : ¬(ORDER_STATUS_KEYWORDS.any fun k => pyContains (pyToLower t) k) = true :=
      fun hc => h.2 ((mentionsKeyword_iff _ _).mpr hc)
    simp only [Nlu.classify]
    rw [if_neg hno, if_pos hf]
  · have hno : ¬(ORDER_STATUS_KEYWORDS.any fun k => pyContains (pyToLower t) k) = true :=
      fun hc => h.1 ((mentionsKeyword_iff _ _).mpr hc)
    have hnf : ¬(FAQ_KEYWORDS.any fun k => pyContains (pyToLower t) k) = true :=
      fun hc => h.2 ((mentionsKeyword_iff _ _).mpr hc)
    simp only [Nlu.classify]
    rw [if_neg hno, if_neg hnf]

/-- C6 (witness): `"status jam"` contains both an order-tracking keyword
(`"status"`) and an FAQ keyword (`"jam"`) and classifies as
`order_status` at 0.85. -/
theorem c6_classifier_total_priority_witness :
    (mentionsKeyword ORDER_STATUS_KEYWORDS "status jam" ∧
      mentionsKeyword FAQ_KEYWORDS "status jam") ∧
    Nlu.classify "status jam" = ⟨.order_status, mkRat 85 100⟩ :=
  ⟨⟨(mentionsKeyword_iff _ _).mpr (by decide), (mentionsKeyword_iff _ _).mpr (by decide)⟩,
    (c6_classifier_total_priority "status jam").1
      ⟨(mentionsKeyword_iff _ _).mpr (by decide), (mentionsKeyword_iff _ _).mpr (by decide)⟩⟩

/-- C7: guardrail idempotence.  For every text and confidence, re-applying
the guardrail at confidence 1.0 with no denylist to the final text of a
first application leaves that final text unchanged. -/
theorem c7_guard_idempotent (t : String) (c : ℚ) :
    (Guard.apply (Guard.apply t c none).final_text 1 none).final_text =
      (Guard.apply t c none).final_text := by
  rw [apply_none_eq t c]
  by_cases h0 : pyStrip t = ""
  · rw [if_pos h0]
    decide
  · rw [if_neg h0]
    by_cases hlt : c < Guard.LOW_CONFIDENCE_THRESHOLD
    · rw [if_pos hlt]
      decide
    · rw [if_neg hlt]
      show (Guard.apply (pyStrip t) 1 none).final_text = pyStrip t
      rw [apply_none_eq, pyStrip_idem, if_neg h0,
        if_neg (by decide : ¬((1 : ℚ) < Guard.LOW_CONFIDENCE_THRESHOLD))]

/-- C10: guardrail output invariant.  `guard.apply` always returns a
complete result (both fields, by the shape of `GuardResult`); the final
text is always one of the stripped input, the low-confidence fallback or
the denylist fallback; and whenever `escalate` is false the final text is
exactly the stripped input. -/
theorem c10_guard_output_invariant (t : String) (c : ℚ)
    (dlo : Option (List String)) :
    ((Guard.apply t c dlo).final_text = pyStrip t ∨
      (Guard.apply t c dlo).final_text = Guard.LOW_CONFIDENCE_RESPONSE ∨
      (Guard.apply t c dlo).final_text = Guard.DENYLIST_RESPONSE) ∧
    ((Guard.apply t c dlo).escalate = false →
      (Guard.apply t c dlo).final_text = pyStrip t) := by
  rcases dlo with _ | dl
  · rw [apply_none_eq]
    split_ifs with h1 h2
    · exact ⟨Or.inr (Or.inl rfl), by simp⟩
    · exact ⟨Or.inr (Or.inl rfl), by simp⟩
    · exact ⟨Or.inl rfl, fun _ => rfl⟩
  · rw [apply_some_eq]
    split_ifs with h1 h2 h3 h4
    · exact ⟨Or.inr (Or.inl rfl), by simp⟩
    · exact ⟨Or.inr (Or.inr rfl), by simp⟩
    · exact ⟨Or.inr (Or.inl rfl), by simp⟩
    · exact ⟨Or.inr (Or.inr rfl), by simp⟩
    · exact ⟨Or.inl rfl, fun _ => rfl⟩

/-- C10 (witness): a passing input is returned stripped with no
escalation. -/
theorem c10_guard_output_invariant_witness :
    (Guard.apply " hai " 1 (some DENYLIST_TERMS)).escalate = false ∧
    (Guard.apply " hai " 1 (some DENYLIST_TERMS)).final_text = pyStrip " hai " :=
  ⟨by decide,
    (c10_guard_output_invariant " hai " 1 (some DENYLIST_TERMS)).2 (by decide)⟩

/-- C1: out-of-scope override.  Whenever the classification intent of the
inbound text is `out_of_scope`, all three pipelines (form-encoded
`_handle_message`, JSON-chat `_handle_text_common`, interactive Phase 2
`process_followup_task`) dispatch exactly the fixed low-confidence fallback
with `escalate = true`, and persist escalation on the session, regardless
of the collaborator's answer. -/
theorem c1_out_of_scope_override
    (payload : TwilioPayload) (text uid : String) (task : DeferredTask)
    (gen : GeneratedAnswer) (bedrock : Except PyErr GeneratedAnswer)
    (s : Option SessionState) (postStatus : Nat)
    (h1 : (Nlu.classify payload.body).intent = .out_of_scope)
    (h2 : payload.num_media = 0)
    (h3 : (Nlu.classify text).intent = .out_of_scope)
    (h4 : (Nlu.classify task.question).intent = .out_of_scope)
    (h5 : ¬(task.interaction_token = "" ∨ task.application_id = none)) :
    (∃ o, handle_message payload gen = some o ∧
        o.sent_text = Guard.LOW_CONFIDENCE_RESPONSE ∧ o.escalate = true ∧
        o.session.escalation = true) ∧
    ((handle_text_common text uid gen).sent_text = Guard.LOW_CONFIDENCE_RESPONSE ∧
      (handle_text_common text uid gen).escalate = true ∧
      (handle_text_common text uid gen).session.escalation = true) ∧
    (∃ fo, process_followup_task task (.ok s) bedrock
          (fun _ => .ok ()) (fun _ => .ok postStatus) = .ok fo ∧
        fo.posted = some Guard.LOW_CONFIDENCE_RESPONSE ∧
        ∃ st, fo.sessionWritten = some st ∧ st.escalation = true ∧
          st.last_reply = Guard.LOW_CONFIDENCE_RESPONSE) := by
  refine ⟨?_, ?_, ?_⟩
  · have hc := classify_eq_of_out_of_scope h1
    have hmain : handle_message payload gen = some
        { sent_text := Guard.LOW_CONFIDENCE_RESPONSE
          escalate := true
          guard_confidence := mkRat 3 10
          session :=
            { wa_id := pyOrStr payload.wa_id payload.from_number
              last_intent := .out_of_scope
              last_reply := Guard.LOW_CONFIDENCE_RESPONSE
              escalation := true
              bedrock_confidence := mkRat 3 10 } } := by
      simp [handle_message, hc, h2, routeReply]
    exact ⟨_, hmain, rfl, rfl, rfl⟩
  · have hc := classify_eq_of_out_of_scope h3
    have hmain : handle_text_common text uid gen =
        { sent_text := Guard.LOW_CONFIDENCE_RESPONSE
          escalate := true
          guard_confidence := mkRat 3 10
          session :=
            { wa_id := uid
              last_intent := .out_of_scope
              last_reply := Guard.LOW_CONFIDENCE_RESPONSE
              escalation := true
              bedrock_confidence := mkRat 3 10 } } := by
      simp [handle_text_common, hc, routeReply, pyOr]
    rw [hmain]
    exact ⟨rfl, rfl, rfl⟩
  · have hc := classify_eq_of_out_of_scope h4
    have hmain : process_followup_task task (.ok s) bedrock
        (fun _ => .ok ()) (fun _ => .ok postStatus) = .ok
        { posted := some Guard.LOW_CONFIDENCE_RESPONSE
          sessionWritten := some
            { wa_id := task.user_id
              last_intent := .out_of_scope
              last_reply := Guard.LOW_CONFIDENCE_RESPONSE
              escalation := true
              bedrock_confidence := mkRat 3 10 }
          guard_confidence := some (mkRat 3 10) } := by
      simp [process_followup_task, hc, h5, routeReply, pyOr]
      rfl
    exact ⟨_, hmain, rfl, _, rfl, rfl, rfl⟩

/-- C1 (witness): on the unmatched text `"halo"` all three pipelines
answer with the low-confidence fallback and escalate. -/
theorem c1_out_of_scope_override_witness :
    ((Nlu.classify "halo").intent = .out_of_scope ∧
      ¬(("tok" : String) = "" ∨ (some "app" : Option String) = none)) ∧
    (∃ o, handle_message ⟨"+100", none, "halo", 0⟩ ⟨"x", 1⟩ = some o ∧
        o.sent_text = Guard.LOW_CONFIDENCE_RESPONSE ∧ o.escalate = true ∧
        o.session.escalation = true) :=
  ⟨⟨by decide, by decide⟩,
    (c1_out_of_scope_override ⟨"+100", none, "halo", 0⟩ "halo" "u"
      ⟨"halo", "u", "tok", some "app"⟩ ⟨"x", 1⟩ (.ok ⟨"x", 1⟩) none 200
      (by decide) rfl (by decide) (by decide) (by decide)).1⟩

/-- C2 (counterexample): an exception raised by the session read (the
DynamoDB `get_item` of `SessionStore.get_session`, re-raised after
logging) happens before the `try` block of `process_followup_task` and
propagates to its caller, contradicting the claim that an exception in any
Phase 2 step (including the session read) is caught inside
`process_followup_task`. -/
theorem c2_counterexample :
    process_followup_task ⟨"halo", "u", "tok", some "app"⟩
      (.error (.clientError "dynamodb_get_item_error")) (.ok ⟨"", 0⟩)
      (fun _ => .ok ()) (fun _ => .ok 200) =
      .error (.clientError "dynamodb_get_item_error") := rfl

/-- C2 (amended): once the session read has succeeded, an exception raised
by any later Phase 2 step (generation, guardrail section, session write or
the callback POST) is caught inside `process_followup_task` and never
propagates: for arbitrary (possibly failing) collaborators the call always
returns normally. -/
theorem c2_try_block_containment (task : DeferredTask)
    (s : Option SessionState) (bedrock : Except PyErr GeneratedAnswer)
    (put : SessionState → Except PyErr Unit)
    (post : String → Except PyErr Nat) :
    ∃ o, process_followup_task task (.ok s) bedrock put post = .ok o := by
  unfold process_followup_task
  split
  · exact ⟨_, rfl⟩
  · dsimp only
    split
    · exact ⟨_, rfl⟩
    · exact ⟨_, rfl⟩

/-- C4 (counterexample): a RAG response with no citations but a nonempty
output text gets confidence 0.75, not the 0 the claim assigns to the
no-citations case. -/
theorem c4_counterexample :
    (answer_with_rag { output_text := "Buka 9-21", citations := [] }).confidence =
      mkRat 3 4 ∧
    (answer_with_rag { output_text := "Buka 9-21", citations := [] }).answer ≠ "" ∧
    (mkRat 3 4 : ℚ) ≠ 0 :=
  ⟨by decide, by decide, by decide⟩

/-- C4 (amended): `answer_with_rag` sets the confidence to the maximum
citation score when that maximum is positive; otherwise to the default
0.75 when (stripped) text was produced; otherwise to 0 — in particular the
confidence is 0 only when there is no positive score and no text. -/
theorem c4_rag_confidence_rule (resp : RagResponse) :
    (0 < ragHighestScore resp.citations →
      (answer_with_rag resp).confidence = ragHighestScore resp.citations) ∧
    (ragHighestScore resp.citations ≤ 0 → pyStrip resp.output_text ≠ "" →
      (answer_with_rag resp).confidence = mkRat 3 4) ∧
    (ragHighestScore resp.citations ≤ 0 → pyStrip resp.output_text = "" →
      (answer_with_rag resp).confidence = 0) := by
  refine ⟨fun h => ?_, fun h hne => ?_, fun h he => ?_⟩
  · simp only [answer_with_rag]
    rw [if_pos h]
  · simp only [answer_with_rag]
    rw [if_neg (not_lt.mpr h), if_pos hne]
  · simp only [answer_with_rag]
    rw [if_neg (not_lt.mpr h), if_neg (not_not_intro he)]

/-- C4 (witness): with one positive citation score the confidence is that
score. -/
theorem c4_rag_confidence_rule_witness :
    0 < ragHighestScore [[some (mkRat 4 5)]] ∧
    (answer_with_rag { output_text := "ok", citations := [[some (mkRat 4 5)]] }).confidence =
      ragHighestScore [[some (mkRat 4 5)]] :=
  ⟨by decide, (c4_rag_confidence_rule _).1 (by decide)⟩

/-- C5: confidence blending via `min`.  On every path routed through
generation (intent neither `order_status` nor `out_of_scope`) the
confidence passed to the guardrail is exactly
`min(classification confidence, generated-answer confidence)` — on the
form-encoded path, the JSON chat path and the interactive Phase 2 path. -/
theorem c5_confidence_blending
    (payload : TwilioPayload) (text uid : String) (task : DeferredTask)
    (gen : GeneratedAnswer) (s : Option SessionState) (postStatus : Nat)
    (h2 : payload.num_media = 0)
    (hform_o : (Nlu.classify payload.body).intent ≠ .order_status)
    (hform_s : (Nlu.classify payload.body).intent ≠ .out_of_scope)
    (hchat_o : (Nlu.classify text).intent ≠ .order_status)
    (hchat_s : (Nlu.classify text).intent ≠ .out_of_scope)
    (hdisc_o : (Nlu.classify task.question).intent ≠ .order_status)
    (hdisc_s : (Nlu.classify task.question).intent ≠ .out_of_scope)
    (h5 : ¬(task.interaction_token = "" ∨ task.application_id = none)) :
    (∃ o, handle_message payload gen = some o ∧
        o.guard_confidence =
          min (Nlu.classify payload.body).confidence gen.confidence) ∧
    ((handle_text_common text uid gen).guard_confidence =
      min (Nlu.classify text).confidence gen.confidence) ∧
    (∃ fo, process_followup_task task (.ok s) (.ok gen)
          (fun _ => .ok ()) (fun _ => .ok postStatus) = .ok fo ∧
        fo.guard_confidence =
          some (min (Nlu.classify task.question).confidence gen.confidence)) := by
  have hcf := classify_eq_of_faq (intent_resolve hform_o hform_s)
  have hcc := classify_eq_of_faq (intent_resolve hchat_o hchat_s)
  have hcd := classify_eq_of_faq (intent_resolve hdisc_o hdisc_s)
  refine ⟨?_, ?_, ?_⟩
  · simp [handle_message, hcf, h2, routeReply]
  · simp [handle_text_common, hcc, routeReply, pyOr]
  · simp [process_followup_task, hcd, h5, routeReply, pyOr]
    exact ⟨_, rfl, rfl⟩

/-- C5 (witness): an FAQ question with a 0.9-confidence generated answer
passes `min(0.70, 0.90) = 0.70` to the guardrail on the chat path. -/
theorem c5_confidence_blending_witness :
    ((Nlu.classify "jam buka").intent ≠ Intent.order_status ∧
      (Nlu.classify "jam buka").intent ≠ Intent.out_of_scope) ∧
    (handle_text_common "jam buka" "u" ⟨"Buka 9-21", mkRat 9 10⟩).guard_confidence =
      min (Nlu.classify "jam buka").confidence (mkRat 9 10) :=
  ⟨⟨by decide, by decide⟩,
    (c5_confidence_blending ⟨"+100", none, "jam buka", 0⟩ "jam buka" "u"
      ⟨"jam buka", "u", "tok", some "app"⟩ ⟨"Buka 9-21", mkRat 9 10⟩ none 200
      rfl (by decide) (by decide) (by decide) (by decide) (by decide) (by decide)
      (by decide)).2.1⟩

/-- C8: bounded outbound retry.  `_http_post_with_retry` makes at most 3
attempts, retries (sleeping 0.5s then 1.0s) exactly when the status is in
the 5xx class, and returns immediately on any status below 500; a 4xx
response is returned after a single attempt and then raised by
`send_text`'s `raise_for_status` without any retry. -/
theorem c8_bounded_retry (post : Nat → Except PyErr Nat) :
    (http_post_with_retry post =
      (match post 1 with
      | .error e => .error e
      | .ok s1 =>
        if s1 < 500 then .ok ⟨s1, 1, []⟩
        else
          match post 2 with
          | .error e => .error e
          | .ok s2 =>
            if s2 < 500 then .ok ⟨s2, 2, [mkRat 1 2]⟩
            else
              match post 3 with
              | .error e => .error e
              | .ok s3 => .ok ⟨s3, 3, [mkRat 1 2, 1]⟩)) ∧
    (∀ s, post 1 = .ok s → 400 ≤ s → s < 500 →
      send_text post = .error (.httpStatusError s)) ∧
    (∀ r, http_post_with_retry post = .ok r → r.attempts ≤ 3) := by
  have hchar : http_post_with_retry post =
      (match post 1 with
      | .error e => .error e
      | .ok s1 =>
        if s1 < 500 then .ok ⟨s1, 1, []⟩
        else
          match post 2 with
          | .error e => .error e
          | .ok s2 =>
            if s2 < 500 then .ok ⟨s2, 2, [mkRat 1 2]⟩
            else
              match post 3 with
              | .error e => .error e
              | .ok s3 => .ok (⟨s3, 3, [mkRat 1 2, 1]⟩ : RetryOutcome)) := by
    unfold http_post_with_retry
    rw [retryLoop]
    simp only [Nat.zero_add, List.nil_append]
    split
    · rfl
    · rename_i s1 heq
      by_cases h1 : s1 < 500
      · rw [dif_pos (Or.inl h1), if_pos h1]
      · rw [dif_neg (by simp [h1]), if_neg h1, half_mul_two]
        rw [retryLoop]
        simp only [Nat.reduceAdd]
        split
        · rfl
        · rename_i s2 heq2
          by_cases h2 : s2 < 500
          · rw [dif_pos (Or.inl h2), if_pos h2]
          · rw [dif_neg (by simp [h2]), if_neg h2]
            rw [retryLoop]
            simp only [Nat.reduceAdd]
            split
            · rfl
            · rw [dif_pos (Or.inr (by decide))]
              rfl
  refine ⟨hchar, fun s hp h400 h500 => ?_, fun r hr => ?_⟩
  · unfold send_text
    rw [hchar, hp]
    simp [h400, h500]
  · rw [hchar] at hr
    rcases hp1 : post 1 with e | s1 <;> rw [hp1] at hr <;> dsimp only at hr
    · simp at hr
    · by_cases h1 : s1 < 500
      · rw [if_pos h1] at hr
        simp only [Except.ok.injEq] at hr
        rw [← hr]
        simp
      · rw [if_neg h1] at hr
        rcases hp2 : post 2 with e | s2 <;> rw [hp2] at hr <;> dsimp only at hr
        · simp at hr
        · by_cases h2 : s2 < 500
          · rw [if_pos h2] at hr
            simp only [Except.ok.injEq] at hr
            rw [← hr]
            simp
          · rw [if_neg h2] at hr
            rcases hp3 : post 3 with e | s3 <;> rw [hp3] at hr <;> dsimp only at hr
            · simp at hr
            · simp only [Except.ok.injEq] at hr
              rw [← hr]

/-- C8 (witness): a single 404 response is returned after one attempt and
raised by `send_text` without retrying. -/
theorem c8_bounded_retry_witness :
    ((fun _ : Nat => (Except.ok 404 : Except PyErr Nat)) 1 = .ok 404 ∧
      400 ≤ 404 ∧ 404 < 500) ∧
    send_text (fun _ => .ok 404) = .error (.httpStatusError 404) :=
  ⟨⟨rfl, by decide, by decide⟩,
    (c8_bounded_retry (fun _ => .ok 404)).2.1 404 rfl (by decide) (by decide)⟩

/-- C9: interactive-channel denylist gap.  Phase 2 calls the guardrail with
no denylist, so a generated FAQ answer that contains a denylisted term
(with confidence at or above the threshold) is POSTed to the callback URL
as its stripped self, term included — while the form-encoded and JSON-chat
paths, which pass `DENYLIST_TERMS`, replace the same answer with the
denylist fallback and escalate. -/
theorem c9_interactive_denylist_gap
    (payload : TwilioPayload) (text uid : String) (task : DeferredTask)
    (gen : GeneratedAnswer) (s : Option SessionState) (postStatus : Nat)
    (h2 : payload.num_media = 0)
    (hform : (Nlu.classify payload.body).intent = .faq)
    (hchat : (Nlu.classify text).intent = .faq)
    (hdisc : (Nlu.classify task.question).intent = .faq)
    (h5 : ¬(task.interaction_token = "" ∨ task.application_id = none))
    (hterm : Guard.contains_denylisted_term (pyStrip gen.answer) DENYLIST_TERMS = true)
    (hconf : Guard.LOW_CONFIDENCE_THRESHOLD ≤ gen.confidence)
    (hne : pyStrip gen.answer ≠ "") :
    (∃ fo, process_followup_task task (.ok s) (.ok gen)
          (fun _ => .ok ()) (fun _ => .ok postStatus) = .ok fo ∧
        fo.posted = some (pyStrip gen.answer)) ∧
    (∃ o, handle_message payload gen = some o ∧
        o.sent_text = Guard.DENYLIST_RESPONSE ∧ o.escalate = true) ∧
    ((handle_text_common text uid gen).sent_text = Guard.DENYLIST_RESPONSE ∧
      (handle_text_common text uid gen).escalate = true) := by
  have hcf := classify_eq_of_faq hform
  have hcc := classify_eq_of_faq hchat
  have hcd := classify_eq_of_faq hdisc
  have hmin : ¬(min (mkRat 7 10) gen.confidence < Guard.LOW_CONFIDENCE_THRESHOLD) :=
    not_lt.mpr (le_min (by decide) hconf)
  have hg_none : Guard.apply gen.answer (min (mkRat 7 10) gen.confidence) none =
      { final_text := pyStrip gen.answer, escalate := false } := by
    rw [apply_none_eq, if_neg hne, if_neg hmin]
  have hg_some : Guard.apply gen.answer (min (mkRat 7 10) gen.confidence)
      (some DENYLIST_TERMS) =
      { final_text := Guard.DENYLIST_RESPONSE, escalate := true } := by
    rw [apply_some_eq, if_neg hne, if_neg hmin,
      if_pos (by rw [hterm]; decide)]
  refine ⟨?_, ?_, ?_⟩
  · simp [process_followup_task, hcd, h5, routeReply, pyOr, hg_none]
    refine ⟨_, rfl, ?_⟩
    rw [hg_none]
  · simp [handle_message, hcf, h2, routeReply, hg_some]
  · simp [handle_text_common, hcc, routeReply, pyOr, hg_some]

/-- C9 (witness): the deferred answer `"kode otp anda"` (containing the
denylisted `"otp"`) is posted verbatim by Phase 2. -/
theorem c9_interactive_denylist_gap_witness :
    ((Nlu.classify "jam buka").intent = Intent.faq ∧
      Guard.contains_denylisted_term (pyStrip "kode otp anda") DENYLIST_TERMS = true ∧
      Guard.LOW_CONFIDENCE_THRESHOLD ≤ (1 : ℚ) ∧ pyStrip "kode otp anda" ≠ "") ∧
    (∃ fo, process_followup_task ⟨"jam buka", "u", "tok", some "app"⟩
          (.ok none) (.ok ⟨"kode otp anda", 1⟩)
          (fun _ => .ok ()) (fun _ => .ok 200) = .ok fo ∧
        fo.posted = some (pyStrip "kode otp anda")) :=
  ⟨⟨by decide, by decide, by decide, by decide⟩,
    (c9_interactive_denylist_gap ⟨"+100", none, "jam buka", 0⟩ "jam buka" "u"
      ⟨"jam buka", "u", "tok", some "app"⟩ ⟨"kode otp anda", 1⟩ none 200
      rfl (by decide) (by decide) (by decide) (by decide) (by decide) (by decide)
      (by decide)).1⟩

end Chatbot
